import Mathlib

/-!
Verification of the gold-price oracle service (goldApiService.js,
oracleUpdater.js, GoldOracle.sol).

Modelling conventions:
* JavaScript numbers are modelled as exact rationals (ℚ).  All quantities the
  service manipulates are decimal quotes and fixed-point integers; the gold
  service performs only +, *, /, Math.floor on them, which we embed as the
  corresponding ℚ operations and the rational floor.
* BigInt / uint256 values are modelled as ℕ, Math.floor results as ℤ.
* async functions that can throw are embedded as Except String valued
  functions; an Except.error value is a thrown exception, and the error
  string is the message of the Error object the code throws.
* External I/O (the HTTP quote source, the ledger contract, transaction
  submission) is passed in explicitly as an environment argument.
-/

namespace GoldApi

/-- Constant GRAMS_PER_OUNCE = 31.1035 from goldApiService.js. -/
def GRAMS_PER_OUNCE : ℚ := 311035 / 10000

/-- Constant DECIMALS = 100000000 (10^8) used by calculatePrices. -/
def DECIMALS : ℚ := 100000000

/-- Result shape of calculatePrices: the five fixed-point prices, each the
result of a Math.floor and hence an integer. -/
structure PriceSet where
  pricePerGram : ℤ
  pricePerOunce : ℤ
  pricePerKarat24 : ℤ
  pricePerKarat22 : ℤ
  pricePerKarat18 : ℤ
deriving DecidableEq, Repr

/-- Embedding of calculatePrices from goldApiService.js.  The argument is
apiData.price (the spot price per ounce).  The function performs no input
validation: it is a total function on ℚ, exactly as the source is total on
numbers. -/
def calculatePrices (price : ℚ) : PriceSet :=
  let pricePerOunce := price
  let pricePerGram := pricePerOunce / GRAMS_PER_OUNCE
  let pricePerKarat24 := pricePerGram
  let pricePerKarat22 := pricePerKarat24 * (22 / 24)
  let pricePerKarat18 := pricePerKarat24 * (18 / 24)
  { pricePerGram := ⌊pricePerGram * DECIMALS⌋
    pricePerOunce := ⌊pricePerOunce * DECIMALS⌋
    pricePerKarat24 := ⌊pricePerKarat24 * DECIMALS⌋
    pricePerKarat22 := ⌊pricePerKarat22 * DECIMALS⌋
    pricePerKarat18 := ⌊pricePerKarat18 * DECIMALS⌋ }

/-- Body of a 2xx response from the quote source: the JSON object
response.data, of which fetchGoldPrice only inspects the price field.
price = none models an absent / null / undefined field. -/
structure GoldApiBody where
  price : Option ℚ
deriving DecidableEq

/-- Outcome of one axios.get call, covering the four branches the source
distinguishes: a 2xx response (whose data may itself be missing), an error
response (error.response set), no response (error.request set), and a
request-setup failure. -/
inductive HttpOutcome where
  | success (body : Option GoldApiBody)
  | errorResponse (status : ℕ) (statusText : String)
  | noResponse
  | setupFailure (message : String)

/-- Embedding of fetchGoldPrice from goldApiService.js.  On a 2xx response the
code checks the JS truthiness of response.data and response.data.price; a
missing body, a missing price field or a zero price is falsy and makes the
code throw Invalid response format from GoldAPI (NaN, the remaining falsy
number, has no ℚ counterpart).  That exception has neither a response nor a
request field, so the catch block rethrows it unchanged.  Non-2xx responses
and absent responses are rethrown with the messages the source builds. -/
def fetchGoldPrice (outcome : HttpOutcome) : Except String ℚ :=
  match outcome with
  | .success body =>
    match body with
    | some b =>
      match b.price with
      | some p =>
        if p = 0 then .error "Invalid response format from GoldAPI" else .ok p
      | none => .error "Invalid response format from GoldAPI"
    | none => .error "Invalid response format from GoldAPI"
  | .errorResponse status _ => .error ("GoldAPI request failed: " ++ toString status)
  | .noResponse => .error "GoldAPI did not respond"
  | .setupFailure message => .error message

/-- Value config.update.maxRetries from src/config/index.js. -/
def maxRetriesConfig : ℕ := 3

/-- Value config.update.retryDelayMs from src/config/index.js. -/
def retryDelayMsConfig : ℕ := 5000

/-- Embedding of getGoldPrices from goldApiService.js.  http gives the outcome
of the axios call on each attempt (attempt k is the call made when
retryCount = k).  The returned pair is the overall result together with the
total number of milliseconds spent in the setTimeout waits; each retry first
waits retryDelayMs.  On success the successful quote is fed to
calculatePrices; when retryCount reaches maxRetries the last error is
rethrown. -/
def getGoldPrices (maxRetries retryDelayMs : ℕ) (http : ℕ → HttpOutcome)
    (retryCount : ℕ) : Except String PriceSet × ℕ :=
  match fetchGoldPrice (http retryCount) with
  | .ok price => (.ok (calculatePrices price), 0)
  | .error e =>
    if _h : retryCount < maxRetries then
      let rest := getGoldPrices maxRetries retryDelayMs http (retryCount + 1)
      (rest.1, retryDelayMs + rest.2)
    else
      (.error e, 0)
termination_by maxRetries - retryCount
decreasing_by omega

end GoldApi

namespace Updater

/-- Record returned by the contract call getAllPrices(), as read back by
getCurrentContractPrices in oracleUpdater.js.  ethers decodes each uint256
into a BigInt; we model them as ℕ. -/
structure ContractPriceData where
  pricePerGram : ℕ
  pricePerOunce : ℕ
  pricePerKarat24 : ℕ
  pricePerKarat22 : ℕ
  pricePerKarat18 : ℕ
  lastUpdated : ℕ
deriving DecidableEq, Repr

/-- Embedding of pricesChanged from oracleUpdater.js.  oldPrices are the
BigInt values read from the contract, newPrices the Math.floor numbers from
calculatePrices (the JS code mixes BigInt and number in the comparison and
converts with BigInt(...); both are exact integers, compared here in ℤ). -/
def pricesChanged (oldPrices : ContractPriceData) (newPrices : GoldApi.PriceSet) : Bool :=
  if oldPrices.lastUpdated = 0 then
    true
  else
    let threshold : ℤ := 10000
    let gramDiff : ℤ :=
      if (oldPrices.pricePerGram : ℤ) > newPrices.pricePerGram then
        (oldPrices.pricePerGram : ℤ) - newPrices.pricePerGram
      else
        newPrices.pricePerGram - (oldPrices.pricePerGram : ℤ)
    gramDiff > threshold

/-- Receipt of a confirmed transaction, the fields of tx.wait() that
updatePrices reads. -/
structure TxReceipt where
  hash : String
  blockNumber : ℕ
  gasUsed : ℕ
deriving DecidableEq, Repr

/-- External world of one updatePrices cycle: the HTTP outcome of each fetch
attempt, the result of reading getAllPrices() from the contract, and the
result of updateContractPrices (gas estimation, fee query, submission and
confirmation folded into one Except-valued call, since updatePrices only
observes its thrown error or its receipt). -/
structure OrchestratorEnv where
  http : ℕ → GoldApi.HttpOutcome
  contractPrices : Except String ContractPriceData
  submit : GoldApi.PriceSet → Except String TxReceipt

/-- Return value of updatePrices in oracleUpdater.js: either the
no-significant-change object or the success object built from the receipt. -/
inductive UpdateResult where
  | noChange (message : String)
  | updated (transactionHash : String) (blockNumber : ℕ) (gasUsed : ℕ)
      (prices : GoldApi.PriceSet)
deriving DecidableEq

/-- Embedding of updatePrices from oracleUpdater.js (the orchestrator).  The
try block runs getGoldPrices (with the config constants, starting at
retryCount 0), getCurrentContractPrices, pricesChanged, and, when an update
is needed, updateContractPrices.  The catch block logs and rethrows the same
error, so every failure of a step propagates to the caller unchanged. -/
def updatePrices (env : OrchestratorEnv) : Except String UpdateResult :=
  match (GoldApi.getGoldPrices GoldApi.maxRetriesConfig GoldApi.retryDelayMsConfig
      env.http 0).1 with
  | .error e => .error e
  | .ok newPrices =>
    match env.contractPrices with
    | .error e => .error e
    | .ok currentPrices =>
      if pricesChanged currentPrices newPrices then
        match env.submit newPrices with
        | .error e => .error e
        | .ok receipt =>
          .ok (.updated receipt.hash receipt.blockNumber receipt.gasUsed newPrices)
      else
        .ok (.noChange "No significant price change")

end Updater

namespace Chain

/-- Storage of the GoldOracle contract: the five uint256 prices, the
lastUpdated timestamp and the owner address (addresses modelled as ℕ, with 0
for address(0)). -/
structure OracleState where
  pricePerGram : ℕ
  pricePerOunce : ℕ
  pricePerKarat24 : ℕ
  pricePerKarat22 : ℕ
  pricePerKarat18 : ℕ
  lastUpdated : ℕ
  owner : ℕ
deriving DecidableEq, Repr

/-- State after the constructor: Solidity zero-initializes every storage
variable, and the constructor sets owner to the deployer. -/
def deploy (deployer : ℕ) : OracleState :=
  { pricePerGram := 0
    pricePerOunce := 0
    pricePerKarat24 := 0
    pricePerKarat22 := 0
    pricePerKarat18 := 0
    lastUpdated := 0
    owner := deployer }

/-- Embedding of GoldOracle.updatePrices.  The onlyOwner modifier runs first,
then the five require statements in source order; a failed require reverts
with the given reason and, by EVM semantics, leaves storage unchanged (the
caller keeps the pre-state on an Except.error).  On success all five prices
are stored and lastUpdated is set to block.timestamp. -/
def updatePrices (s : OracleState) (sender blockTimestamp : ℕ)
    (g o k24 k22 k18 : ℕ) : Except String OracleState :=
  if sender ≠ s.owner then .error "GoldOracle: caller is not the owner"
  else if g = 0 then .error "GoldOracle: invalid gram price"
  else if o = 0 then .error "GoldOracle: invalid ounce price"
  else if k24 = 0 then .error "GoldOracle: invalid 24K price"
  else if k22 = 0 then .error "GoldOracle: invalid 22K price"
  else if k18 = 0 then .error "GoldOracle: invalid 18K price"
  else .ok
    { pricePerGram := g
      pricePerOunce := o
      pricePerKarat24 := k24
      pricePerKarat22 := k22
      pricePerKarat18 := k18
      lastUpdated := blockTimestamp
      owner := s.owner }

/-- Embedding of GoldOracle.transferOwnership: onlyOwner, then the
zero-address require, then the owner update. -/
def transferOwnership (s : OracleState) (sender newOwner : ℕ) :
    Except String OracleState :=
  if sender ≠ s.owner then .error "GoldOracle: caller is not the owner"
  else if newOwner = 0 then .error "GoldOracle: new owner is the zero address"
  else .ok { s with owner := newOwner }

/-- EVM execution of an external call: a revert rolls the storage back to the
pre-call state. -/
def execCall (s : OracleState) (r : Except String OracleState) : OracleState :=
  match r with
  | .ok s2 => s2
  | .error _ => s

/-- One state-changing transition of the deployed contract.  update requires
a positive block timestamp: every mined block carries a nonzero timestamp.
Reverted calls and the view functions (getGoldPricePerGram, getAllPrices,
isStale, ...) do not change storage, so they are covered by reflexivity of
the reachability closure. -/
inductive Step : OracleState → OracleState → Prop
  | update (s s2 : OracleState) (sender blockTimestamp g o k24 k22 k18 : ℕ)
      (hts : 0 < blockTimestamp)
      (h : updatePrices s sender blockTimestamp g o k24 k22 k18 = .ok s2) :
      Step s s2
  | transfer (s s2 : OracleState) (sender newOwner : ℕ)
      (h : transferOwnership s sender newOwner = .ok s2) :
      Step s s2

/-- States of the contract reachable from deployment by successful
transactions. -/
def Reachable (deployer : ℕ) (s : OracleState) : Prop :=
  Relation.ReflTransGen Step (deploy deployer) s

/-- Two-phase shape of the storage: untouched since deployment (all prices
and lastUpdated zero) or fully initialized (all prices and lastUpdated
positive). -/
def PriceInvariant (s : OracleState) : Prop :=
  (s.pricePerGram = 0 ∧ s.pricePerOunce = 0 ∧ s.pricePerKarat24 = 0 ∧
    s.pricePerKarat22 = 0 ∧ s.pricePerKarat18 = 0 ∧ s.lastUpdated = 0) ∨
  (0 < s.pricePerGram ∧ 0 < s.pricePerOunce ∧ 0 < s.pricePerKarat24 ∧
    0 < s.pricePerKarat22 ∧ 0 < s.pricePerKarat18 ∧ 0 < s.lastUpdated)

end Chain

/-- Fixture: a quote source that never responds, on any attempt. -/
def httpAllDown : ℕ → GoldApi.HttpOutcome := fun _ => .noResponse

/-- Fixture: a quote source that is down on the first two attempts and then
serves the documented spot price 2037.50. -/
def httpThirdTry : ℕ → GoldApi.HttpOutcome
  | 0 => .noResponse
  | 1 => .noResponse
  | _ => .success (some ⟨some (20375 / 10)⟩)

/-- Fixture: an update-cycle environment whose quote source is down on every
attempt while the ledger read and the submission would succeed. -/
def envFetchDown : Updater.OrchestratorEnv :=
  { http := httpAllDown
    contractPrices := .ok ⟨0, 0, 0, 0, 0, 0⟩
    submit := fun _ => .ok ⟨"0x0", 1, 1⟩ }

/-- Fixture: an update-cycle environment with a healthy quote source and an
uninitialized ledger record, whose transaction submission reverts. -/
def envSubmitDown : Updater.OrchestratorEnv :=
  { http := fun _ => .success (some ⟨some (20375 / 10)⟩)
    contractPrices := .ok ⟨0, 0, 0, 0, 0, 0⟩
    submit := fun _ => .error "transaction reverted" }

/-- Unfolding of calculatePrices to its five floors, with the let chain
substituted through. -/
lemma GoldApi.calculatePrices_eq (p : ℚ) :
    GoldApi.calculatePrices p =
      { pricePerGram := ⌊p / GoldApi.GRAMS_PER_OUNCE * GoldApi.DECIMALS⌋
        pricePerOunce := ⌊p * GoldApi.DECIMALS⌋
        pricePerKarat24 := ⌊p / GoldApi.GRAMS_PER_OUNCE * GoldApi.DECIMALS⌋
        pricePerKarat22 := ⌊p / GoldApi.GRAMS_PER_OUNCE * (22 / 24) * GoldApi.DECIMALS⌋
        pricePerKarat18 := ⌊p / GoldApi.GRAMS_PER_OUNCE * (18 / 24) * GoldApi.DECIMALS⌋ } :=
  rfl

/-- First-attempt success: when the fetch of attempt k succeeds, getGoldPrices
returns its calculated prices with no waiting. -/
lemma GoldApi.getGoldPrices_ok (maxRetries retryDelayMs k : ℕ)
    (http : ℕ → GoldApi.HttpOutcome) (q : ℚ)
    (h : GoldApi.fetchGoldPrice (http k) = .ok q) :
    GoldApi.getGoldPrices maxRetries retryDelayMs http k =
      (.ok (GoldApi.calculatePrices q), 0) := by
  unfold GoldApi.getGoldPrices
  rw [h]

lemma GoldApi.GRAMS_PER_OUNCE_pos : (0 : ℚ) < GoldApi.GRAMS_PER_OUNCE := by
  norm_num [GoldApi.GRAMS_PER_OUNCE]

lemma GoldApi.DECIMALS_pos : (0 : ℚ) < GoldApi.DECIMALS := by
  norm_num [GoldApi.DECIMALS]

/-- C3: pricesChanged returns true whenever the on-chain record was never
initialized (lastUpdated = 0), regardless of the candidate; otherwise it
returns true exactly when the perGram values differ by strictly more than
10000 raw units, so a difference of exactly 10000 or less is skipped. -/
theorem pricesChanged_iff (oldPrices : Updater.ContractPriceData)
    (newPrices : GoldApi.PriceSet) :
    Updater.pricesChanged oldPrices newPrices = true ↔
      (oldPrices.lastUpdated = 0 ∨
        10000 < |(oldPrices.pricePerGram : ℤ) - newPrices.pricePerGram|) := by
  unfold Updater.pricesChanged
  by_cases h0 : oldPrices.lastUpdated = 0
  · simp [h0]
  · simp only [h0, if_false, false_or, decide_eq_true_eq]
    by_cases hgt : (oldPrices.pricePerGram : ℤ) > newPrices.pricePerGram
    · rw [if_pos hgt, abs_of_pos (by omega)]
    · rw [if_neg hgt, abs_sub_comm, abs_of_nonneg (by omega)]

/-- C8: the update decision reads nothing of the candidate PriceSet except
its pricePerGram field, so two candidates that agree there yield the same
decision against any current record. -/
theorem pricesChanged_only_perGram (oldPrices : Updater.ContractPriceData)
    (n1 n2 : GoldApi.PriceSet) (h : n1.pricePerGram = n2.pricePerGram) :
    Updater.pricesChanged oldPrices n1 = Updater.pricesChanged oldPrices n2 := by
  unfold Updater.pricesChanged
  rw [h]

/-- Closed witness for pricesChanged_only_perGram: two candidates sharing
perGram = 5 but differing in all four other fields get the same decision. -/
theorem pricesChanged_only_perGram_witness :
    Updater.pricesChanged ⟨6550000000, 1, 1, 1, 1, 7⟩ ⟨5, 1, 2, 3, 4⟩ =
      Updater.pricesChanged ⟨6550000000, 1, 1, 1, 1, 7⟩ ⟨5, 9, 8, 7, 6⟩ :=
  pricesChanged_only_perGram ⟨6550000000, 1, 1, 1, 1, 7⟩ ⟨5, 1, 2, 3, 4⟩ ⟨5, 9, 8, 7, 6⟩ rfl

/-- C7: for positive spot prices the 24K price equals the gram price and the
karat prices decrease with purity. -/
theorem calculatePrices_karat_monotone (p : ℚ) (hp : 0 < p) :
    (GoldApi.calculatePrices p).pricePerKarat24 = (GoldApi.calculatePrices p).pricePerGram ∧
    (GoldApi.calculatePrices p).pricePerKarat22 ≤ (GoldApi.calculatePrices p).pricePerKarat24 ∧
    (GoldApi.calculatePrices p).pricePerKarat18 ≤ (GoldApi.calculatePrices p).pricePerKarat22 := by
  rw [GoldApi.calculatePrices_eq]
  have hy : 0 ≤ p / GoldApi.GRAMS_PER_OUNCE :=
    le_of_lt (div_pos hp GoldApi.GRAMS_PER_OUNCE_pos)
  have hD : (0 : ℚ) ≤ GoldApi.DECIMALS := le_of_lt GoldApi.DECIMALS_pos
  refine ⟨rfl, ?_, ?_⟩
  · apply Int.floor_le_floor
    apply mul_le_mul_of_nonneg_right _ hD
    nlinarith
  · apply Int.floor_le_floor
    apply mul_le_mul_of_nonneg_right _ hD
    nlinarith

/-- Closed witness for calculatePrices_karat_monotone at the documented spot
price 2037.50. -/
theorem calculatePrices_karat_monotone_witness :
    (GoldApi.calculatePrices (20375 / 10)).pricePerKarat24 =
        (GoldApi.calculatePrices (20375 / 10)).pricePerGram ∧
    (GoldApi.calculatePrices (20375 / 10)).pricePerKarat22 ≤
        (GoldApi.calculatePrices (20375 / 10)).pricePerKarat24 ∧
    (GoldApi.calculatePrices (20375 / 10)).pricePerKarat18 ≤
        (GoldApi.calculatePrices (20375 / 10)).pricePerKarat22 :=
  calculatePrices_karat_monotone (20375 / 10) (by with_unfolding_all decide)

/-- C1 counterexample: calculatePrices performs no input validation, so the
non-positive spot price 0 is not rejected; the call returns the all-zero
PriceSet instead of failing. -/
theorem calculatePrices_zero_counterexample :
    GoldApi.calculatePrices 0 = ⟨0, 0, 0, 0, 0⟩ := by
  with_unfolding_all decide

/-- C1 amended: calculatePrices is total and never raises; on a non-positive
spot price it still returns a PriceSet, all of whose fields are non-positive
(all zero at input 0, by calculatePrices_zero_counterexample).  Zero or
missing quotes are rejected upstream by fetchGoldPrice, not here. -/
theorem calculatePrices_nonpos_input (p : ℚ) (hp : p ≤ 0) :
    (GoldApi.calculatePrices p).pricePerGram ≤ 0 ∧
    (GoldApi.calculatePrices p).pricePerOunce ≤ 0 ∧
    (GoldApi.calculatePrices p).pricePerKarat24 ≤ 0 ∧
    (GoldApi.calculatePrices p).pricePerKarat22 ≤ 0 ∧
    (GoldApi.calculatePrices p).pricePerKarat18 ≤ 0 := by
  rw [GoldApi.calculatePrices_eq]
  have hy : p / GoldApi.GRAMS_PER_OUNCE ≤ 0 :=
    div_nonpos_iff.mpr (Or.inr ⟨hp, le_of_lt GoldApi.GRAMS_PER_OUNCE_pos⟩)
  have hD : (0 : ℚ) ≤ GoldApi.DECIMALS := le_of_lt GoldApi.DECIMALS_pos
  refine ⟨?_, ?_, ?_, ?_, ?_⟩ <;>
    · apply Int.floor_nonpos
      nlinarith

/-- Closed witness for calculatePrices_nonpos_input at input 0. -/
theorem calculatePrices_nonpos_input_witness :
    (GoldApi.calculatePrices 0).pricePerGram ≤ 0 ∧
    (GoldApi.calculatePrices 0).pricePerOunce ≤ 0 ∧
    (GoldApi.calculatePrices 0).pricePerKarat24 ≤ 0 ∧
    (GoldApi.calculatePrices 0).pricePerKarat22 ≤ 0 ∧
    (GoldApi.calculatePrices 0).pricePerKarat18 ≤ 0 :=
  calculatePrices_nonpos_input 0 le_rfl

/-- C2 counterexample: the spec formula perKarat22 = floor(perKarat24 * 22/24)
fails, because the code multiplies by 22/24 before flooring.  At spot price
0.0000040745585 the scaled gram price is exactly 13.1: the code floors
13.1 * 22/24 = 12.008... to 12, while flooring first gives
floor(13 * 22/24) = floor(11.91...) = 11. -/
theorem calculatePrices_karat22_formula_counterexample :
    (GoldApi.calculatePrices (40745585 / 10000000000000)).pricePerKarat22 = 12 ∧
    ⌊((GoldApi.calculatePrices (40745585 / 10000000000000)).pricePerKarat24 : ℚ) * (22 / 24)⌋ = 11 := by
  constructor
  · with_unfolding_all decide
  · with_unfolding_all decide

/-- C2 amended: for every positive spot price the five fields are the
non-negative integers perGram = floor(p / 31.1035 * 10^8),
perOunce = floor(p * 10^8), perKarat24 = perGram, and the karat fields floor
AFTER multiplying by the purity: perKarat22 = floor(p / 31.1035 * 22/24 * 10^8)
and perKarat18 = floor(p / 31.1035 * 18/24 * 10^8), each at least the
floor-first value of the original claim; the worked example 2037.50 gives
perOunce = 203750000000 and perGram = floor(203750000000 / 31.1035)
= 6550709727. -/
theorem calculatePrices_formulas (p : ℚ) (hp : 0 < p) :
    (0 ≤ (GoldApi.calculatePrices p).pricePerGram ∧
     0 ≤ (GoldApi.calculatePrices p).pricePerOunce ∧
     0 ≤ (GoldApi.calculatePrices p).pricePerKarat24 ∧
     0 ≤ (GoldApi.calculatePrices p).pricePerKarat22 ∧
     0 ≤ (GoldApi.calculatePrices p).pricePerKarat18) ∧
    (GoldApi.calculatePrices p).pricePerGram =
      ⌊p / GoldApi.GRAMS_PER_OUNCE * GoldApi.DECIMALS⌋ ∧
    (GoldApi.calculatePrices p).pricePerOunce = ⌊p * GoldApi.DECIMALS⌋ ∧
    (GoldApi.calculatePrices p).pricePerKarat24 = (GoldApi.calculatePrices p).pricePerGram ∧
    (GoldApi.calculatePrices p).pricePerKarat22 =
      ⌊p / GoldApi.GRAMS_PER_OUNCE * (22 / 24) * GoldApi.DECIMALS⌋ ∧
    (GoldApi.calculatePrices p).pricePerKarat18 =
      ⌊p / GoldApi.GRAMS_PER_OUNCE * (18 / 24) * GoldApi.DECIMALS⌋ ∧
    ⌊((GoldApi.calculatePrices p).pricePerKarat24 : ℚ) * (22 / 24)⌋ ≤
      (GoldApi.calculatePrices p).pricePerKarat22 ∧
    ⌊((GoldApi.calculatePrices p).pricePerKarat24 : ℚ) * (18 / 24)⌋ ≤
      (GoldApi.calculatePrices p).pricePerKarat18 ∧
    (GoldApi.calculatePrices (20375 / 10)).pricePerOunce = 203750000000 ∧
    (GoldApi.calculatePrices (20375 / 10)).pricePerGram =
      ⌊(203750000000 : ℚ) / GoldApi.GRAMS_PER_OUNCE⌋ ∧
    (GoldApi.calculatePrices (20375 / 10)).pricePerGram = 6550709727 := by
  rw [GoldApi.calculatePrices_eq]
  have hy : 0 ≤ p / GoldApi.GRAMS_PER_OUNCE :=
    le_of_lt (div_pos hp GoldApi.GRAMS_PER_OUNCE_pos)
  have hD : (0 : ℚ) ≤ GoldApi.DECIMALS := le_of_lt GoldApi.DECIMALS_pos
  refine ⟨⟨?_, ?_, ?_, ?_, ?_⟩, rfl, rfl, rfl, rfl, rfl, ?_, ?_, ?_, ?_, ?_⟩
  · exact Int.floor_nonneg.mpr (by nlinarith)
  · exact Int.floor_nonneg.mpr (by nlinarith)
  · exact Int.floor_nonneg.mpr (by nlinarith)
  · exact Int.floor_nonneg.mpr (by nlinarith)
  · exact Int.floor_nonneg.mpr (by nlinarith)
  · apply Int.floor_le_floor
    have h1 : ((⌊p / GoldApi.GRAMS_PER_OUNCE * GoldApi.DECIMALS⌋ : ℚ)) ≤
        p / GoldApi.GRAMS_PER_OUNCE * GoldApi.DECIMALS := Int.floor_le _
    nlinarith
  · apply Int.floor_le_floor
    have h1 : ((⌊p / GoldApi.GRAMS_PER_OUNCE * GoldApi.DECIMALS⌋ : ℚ)) ≤
        p / GoldApi.GRAMS_PER_OUNCE * GoldApi.DECIMALS := Int.floor_le _
    nlinarith
  · with_unfolding_all decide
  · with_unfolding_all decide
  · with_unfolding_all decide

/-- Closed witness for calculatePrices_formulas at the documented spot price
2037.50. -/
theorem calculatePrices_formulas_witness :
    (0 : ℚ) < 20375 / 10 ∧
    0 ≤ (GoldApi.calculatePrices (20375 / 10)).pricePerGram :=
  ⟨by with_unfolding_all decide,
    (calculatePrices_formulas (20375 / 10) (by with_unfolding_all decide)).1.1⟩

/-- C4: with maxRetries = 3 and any fixed retry delay d, a fetch path that
fails on the first two attempts and succeeds on the third returns the
successful quote passed through calculatePrices after waiting the delay
twice (once between consecutive attempts); a fetch path failing on all
maxRetries + 1 = 4 attempts rethrows the error of the last attempt after the
three inter-attempt waits. -/
theorem getGoldPrices_retry (d : ℕ) (http : ℕ → GoldApi.HttpOutcome) :
    (∀ e0 e1 q, GoldApi.fetchGoldPrice (http 0) = .error e0 →
      GoldApi.fetchGoldPrice (http 1) = .error e1 →
      GoldApi.fetchGoldPrice (http 2) = .ok q →
      GoldApi.getGoldPrices GoldApi.maxRetriesConfig d http 0 =
        (.ok (GoldApi.calculatePrices q), 2 * d)) ∧
    (∀ e0 e1 e2 e3, GoldApi.fetchGoldPrice (http 0) = .error e0 →
      GoldApi.fetchGoldPrice (http 1) = .error e1 →
      GoldApi.fetchGoldPrice (http 2) = .error e2 →
      GoldApi.fetchGoldPrice (http 3) = .error e3 →
      GoldApi.getGoldPrices GoldApi.maxRetriesConfig d http 0 =
        (.error e3, 3 * d)) := by
  constructor
  · intro e0 e1 q h0 h1 h2
    unfold GoldApi.getGoldPrices
    rw [h0]
    simp only [GoldApi.maxRetriesConfig]
    norm_num
    unfold GoldApi.getGoldPrices
    rw [h1]
    norm_num
    unfold GoldApi.getGoldPrices
    rw [h2]
    simp [Prod.ext_iff]
    omega
  · intro e0 e1 e2 e3 h0 h1 h2 h3
    unfold GoldApi.getGoldPrices
    rw [h0]
    simp only [GoldApi.maxRetriesConfig]
    norm_num
    unfold GoldApi.getGoldPrices
    rw [h1]
    norm_num
    unfold GoldApi.getGoldPrices
    rw [h2]
    norm_num
    unfold GoldApi.getGoldPrices
    rw [h3]
    simp [Prod.ext_iff]
    omega

/-- Closed witness for getGoldPrices_retry with the default delay 5000 ms:
the fail-fail-succeed source yields the computed prices of 2037.50 after two
waits, and the always-down source yields the last error after three. -/
theorem getGoldPrices_retry_witness :
    GoldApi.getGoldPrices GoldApi.maxRetriesConfig 5000 httpThirdTry 0 =
      (.ok (GoldApi.calculatePrices (20375 / 10)), 2 * 5000) ∧
    GoldApi.getGoldPrices GoldApi.maxRetriesConfig 5000 httpAllDown 0 =
      (.error "GoldAPI did not respond", 3 * 5000) :=
  ⟨(getGoldPrices_retry 5000 httpThirdTry).1 "GoldAPI did not respond"
      "GoldAPI did not respond" (20375 / 10) rfl rfl (by with_unfolding_all rfl),
    (getGoldPrices_retry 5000 httpAllDown).2 "GoldAPI did not respond"
      "GoldAPI did not respond" "GoldAPI did not respond" "GoldAPI did not respond"
      rfl rfl rfl rfl⟩

/-- C5 counterexample: updatePrices in oracleUpdater.js rethrows expected
failures instead of wrapping them in an UpdateResult.  With the quote source
down on every attempt the cycle ends as a thrown error, not as a returned
result. -/
theorem updatePrices_throws_counterexample :
    Updater.updatePrices envFetchDown = .error "GoldAPI did not respond" := by
  simp [Updater.updatePrices, envFetchDown, httpAllDown, GoldApi.getGoldPrices,
    GoldApi.fetchGoldPrice, GoldApi.maxRetriesConfig, GoldApi.retryDelayMsConfig]

/-- C5 amended: updatePrices propagates expected failures (fetch failure
after retries, and submission failure on an accepted update) to its caller
as the same thrown error; the wrapping into a response happens in the
callers (the HTTP route returns a 500 envelope, the scheduler logs), not in
updatePrices. -/
theorem updatePrices_propagates_failures :
    (∀ (env : Updater.OrchestratorEnv) (e : String),
      (GoldApi.getGoldPrices GoldApi.maxRetriesConfig GoldApi.retryDelayMsConfig
          env.http 0).1 = .error e →
      Updater.updatePrices env = .error e) ∧
    (∀ (env : Updater.OrchestratorEnv) (p : GoldApi.PriceSet)
        (c : Updater.ContractPriceData) (e : String),
      (GoldApi.getGoldPrices GoldApi.maxRetriesConfig GoldApi.retryDelayMsConfig
          env.http 0).1 = .ok p →
      env.contractPrices = .ok c →
      Updater.pricesChanged c p = true →
      env.submit p = .error e →
      Updater.updatePrices env = .error e) := by
  constructor
  · intro env e h
    unfold Updater.updatePrices
    rw [h]
  · intro env p c e h1 h2 h3 h4
    unfold Updater.updatePrices
    rw [h1, h2]
    simp [h3, h4]

/-- Closed witness for updatePrices_propagates_failures: a reverting
submission on an otherwise healthy cycle surfaces as the thrown revert
error. -/
theorem updatePrices_propagates_failures_witness :
    Updater.updatePrices envSubmitDown = .error "transaction reverted" :=
  updatePrices_propagates_failures.2 envSubmitDown
    (GoldApi.calculatePrices (20375 / 10)) ⟨0, 0, 0, 0, 0, 0⟩ "transaction reverted"
    (by rw [GoldApi.getGoldPrices_ok GoldApi.maxRetriesConfig GoldApi.retryDelayMsConfig
      0 envSubmitDown.http (20375 / 10) (by with_unfolding_all rfl)])
    rfl rfl rfl

/-- C10: a 2xx response whose body lacks a truthy price field — the body
itself missing, the price field missing, or the price equal to 0 — makes
fetchGoldPrice throw Invalid response format from GoldAPI; consequently no
successful fetch ever returns a zero spot price, so a zero price cannot
reach calculatePrices through getGoldPrices. -/
theorem fetchGoldPrice_rejects_falsy :
    (∀ b : GoldApi.GoldApiBody, b.price = none ∨ b.price = some 0 →
      GoldApi.fetchGoldPrice (.success (some b)) =
        .error "Invalid response format from GoldAPI") ∧
    GoldApi.fetchGoldPrice (.success none) =
      .error "Invalid response format from GoldAPI" ∧
    (∀ (outcome : GoldApi.HttpOutcome) (p : ℚ),
      GoldApi.fetchGoldPrice outcome = .ok p → p ≠ 0) := by
  refine ⟨?_, rfl, ?_⟩
  · rintro ⟨price⟩ (h | h) <;> subst h <;> simp [GoldApi.fetchGoldPrice]
  · intro outcome p h
    cases outcome with
    | success body =>
      cases body with
      | none => simp [GoldApi.fetchGoldPrice] at h
      | some b =>
        cases hb : b.price with
        | none => simp [GoldApi.fetchGoldPrice, hb] at h
        | some q =>
          by_cases hq : q = 0
          · simp [GoldApi.fetchGoldPrice, hb, hq] at h
          · simp [GoldApi.fetchGoldPrice, hb, hq] at h
            rw [← h]
            exact hq
    | errorResponse status text => simp [GoldApi.fetchGoldPrice] at h
    | noResponse => simp [GoldApi.fetchGoldPrice] at h
    | setupFailure message => simp [GoldApi.fetchGoldPrice] at h

/-- Closed witness for fetchGoldPrice_rejects_falsy: a 2xx body whose price
field is 0 is rejected with the invalid-format error. -/
theorem fetchGoldPrice_rejects_falsy_witness :
    GoldApi.fetchGoldPrice (.success (some ⟨some 0⟩)) =
      .error "Invalid response format from GoldAPI" :=
  fetchGoldPrice_rejects_falsy.1 ⟨some 0⟩ (Or.inr rfl)

/-- C6: the on-chain updatePrices reverts — leaving the stored record
unchanged — exactly when the caller is not the owner or one of the five
submitted prices is zero; when the caller is the owner and all five prices
are positive it stores the five values, sets lastUpdated to the block
timestamp and keeps the owner. -/
theorem chain_updatePrices_spec (s : Chain.OracleState)
    (sender ts g o k24 k22 k18 : ℕ) :
    ((sender ≠ s.owner ∨ g = 0 ∨ o = 0 ∨ k24 = 0 ∨ k22 = 0 ∨ k18 = 0) →
      ∃ e, Chain.updatePrices s sender ts g o k24 k22 k18 = .error e ∧
        Chain.execCall s (Chain.updatePrices s sender ts g o k24 k22 k18) = s) ∧
    (sender = s.owner → 0 < g → 0 < o → 0 < k24 → 0 < k22 → 0 < k18 →
      Chain.updatePrices s sender ts g o k24 k22 k18 =
        .ok ⟨g, o, k24, k22, k18, ts, s.owner⟩) := by
  constructor
  · intro hbad
    unfold Chain.updatePrices
    split_ifs with h1 h2 h3 h4 h5 h6
    · exact ⟨_, rfl, rfl⟩
    · exact ⟨_, rfl, rfl⟩
    · exact ⟨_, rfl, rfl⟩
    · exact ⟨_, rfl, rfl⟩
    · exact ⟨_, rfl, rfl⟩
    · exact ⟨_, rfl, rfl⟩
    · rcases hbad with h | h | h | h | h | h <;> omega
  · intro hown hg ho h24 h22 h18
    unfold Chain.updatePrices
    split_ifs with h1 h2 h3 h4 h5 h6 <;> first | rfl | omega

/-- Closed witness for chain_updatePrices_spec: on a freshly deployed
contract with owner 7, a non-owner call reverts and keeps the record, and an
owner call with positive prices at timestamp 1000 stores them. -/
theorem chain_updatePrices_spec_witness :
    (∃ e, Chain.updatePrices (Chain.deploy 7) 8 1000 1 2 3 4 5 = .error e ∧
      Chain.execCall (Chain.deploy 7)
        (Chain.updatePrices (Chain.deploy 7) 8 1000 1 2 3 4 5) = Chain.deploy 7) ∧
    Chain.updatePrices (Chain.deploy 7) 7 1000 1 2 3 4 5 =
      .ok ⟨1, 2, 3, 4, 5, 1000, 7⟩ :=
  ⟨(chain_updatePrices_spec (Chain.deploy 7) 8 1000 1 2 3 4 5).1
      (Or.inl (by decide)),
    (chain_updatePrices_spec (Chain.deploy 7) 7 1000 1 2 3 4 5).2
      rfl (by decide) (by decide) (by decide) (by decide) (by decide)⟩

/-- C9: in every reachable state of the GoldOracle contract the storage is
either still in its deployment shape (all five prices and lastUpdated zero)
or fully initialized (all five prices and lastUpdated positive); both
state-changing operations preserve this and the view functions do not write. -/
theorem chain_price_invariant (deployer : ℕ) (s : Chain.OracleState)
    (h : Chain.Reachable deployer s) : Chain.PriceInvariant s := by
  unfold Chain.Reachable at h
  induction h with
  | refl =>
    exact Or.inl (by simp [Chain.deploy])
  | tail _hchain hstep ih =>
    cases hstep with
    | update sender ts g o k24 k22 k18 hts hok =>
      unfold Chain.updatePrices at hok
      split_ifs at hok with h1 h2 h3 h4 h5 h6
      cases hok
      exact Or.inr ⟨Nat.pos_of_ne_zero h2, Nat.pos_of_ne_zero h3, Nat.pos_of_ne_zero h4,
        Nat.pos_of_ne_zero h5, Nat.pos_of_ne_zero h6, hts⟩
    | transfer sender newOwner hok =>
      unfold Chain.transferOwnership at hok
      split_ifs at hok with h1 h2
      cases hok
      rcases ih with ⟨p1, p2, p3, p4, p5, p6⟩ | ⟨p1, p2, p3, p4, p5, p6⟩
      · exact Or.inl ⟨p1, p2, p3, p4, p5, p6⟩
      · exact Or.inr ⟨p1, p2, p3, p4, p5, p6⟩

/-- Closed witness for chain_price_invariant: the freshly deployed state is
reachable and satisfies the invariant. -/
theorem chain_price_invariant_witness : Chain.PriceInvariant (Chain.deploy 7) :=
  chain_price_invariant 7 (Chain.deploy 7) Relation.ReflTransGen.refl
